import Mathlib

/-!
Verification of the geographic service-area / geocoding subsystem of the
job-board application (`src/backend/app.py`).

Part 1 embeds the geometric helpers (`calculate_distance`,
`is_within_service_area`) over the reals.  Part 2 embeds the geocoder
adapter (`geocode_address`) and the two orchestration entry points
(`register`, `edit_profile`) over rational coordinates with the committed
database state made explicit.
-/

namespace RoseGold

/- ## Part 1: distance and service-area policy (over ℝ) -/

noncomputable section Geometry

/-- Mean Earth radius in kilometers, for the spherical distance model. -/
def earthRadiusKm : ℝ := 6371

/-- Degrees to radians. -/
def deg2rad (d : ℝ) : ℝ := d * Real.pi / 180

/-- The haversine of an angle: sin²(x/2). -/
def hav (x : ℝ) : ℝ := Real.sin (x / 2) ^ 2

/-- Modelled from the spec: `calculate_distance(lat1, lon1, lat2, lon2)` in
`app.py` delegates to `geodesic((lat1, lon1), (lat2, lon2)).km` from the
external geopy library, whose code is not part of this repository.  Spec
§4.2 describes the contract as a great-circle distance in kilometers and
states that a spherical haversine formula is an acceptable model of the
geodesic-ellipsoid computation.  We therefore model it by the standard
haversine great-circle formula on a sphere of radius `earthRadiusKm`. -/
def calculate_distance (lat1 lon1 lat2 lon2 : ℝ) : ℝ :=
  2 * earthRadiusKm *
    Real.arcsin (Real.sqrt
      (hav (deg2rad lat2 - deg2rad lat1) +
        Real.cos (deg2rad lat1) * Real.cos (deg2rad lat2) *
          hav (deg2rad lon2 - deg2rad lon1)))

/-- The three service-area environment variables as the process sees them:
`none` models an unset variable, `some v` a set variable already parsed by
`float(...)`. -/
structure ServiceEnv where
  center_lat : Option ℝ
  center_lng : Option ℝ
  radius_km : Option ℝ

/-- `float(os.getenv(name, default))`: the parsed value if set, else the
default. -/
def envFloat (v : Option ℝ) (default : ℝ) : ℝ := v.getD default

/-- `is_within_service_area(lat, lng)` from `app.py`: reads the service-area
center and radius from the environment (defaults 0, 0 and 50) and tests
`calculate_distance(center_lat, center_lng, lat, lng) <= max_radius`. -/
def is_within_service_area (env : ServiceEnv) (lat lng : ℝ) : Prop :=
  calculate_distance (envFloat env.center_lat 0) (envFloat env.center_lng 0)
    lat lng ≤ envFloat env.radius_km 50

end Geometry

/- ## Part 2: geocoder adapter and orchestration (`register`, `edit_profile`)

Coordinates are modelled as rationals (Python floats; the orchestration
logic only stores and truth-tests them, so exact arithmetic is faithful).
The committed database state is made explicit: a handler either commits a
new state (the code path reaching `db.session.commit()`) or returns with
the stored state unchanged (an early `redirect` leaves the session
uncommitted, and the request-scoped session is rolled back at teardown). -/

/-- One candidate of the Mapbox response: `features[0]['geometry']
['coordinates']` is a `[longitude, latitude]` pair. -/
structure Feature where
  lng : ℚ
  lat : ℚ
  deriving DecidableEq

/-- The outcome of the outbound lookup in `geocode_address`, as the `try`
block observes it: a well-formed JSON body with a (possibly empty) feature
list, or any raised exception — transport error, timeout, or a malformed /
unexpectedly shaped body (missing keys, short coordinate lists, JSON decode
errors), all of which the bare `except Exception` catches. -/
inductive ProviderOutcome where
  | response (features : List Feature)
  | networkError
  | malformedResponse
  | timeout
  deriving DecidableEq

/-- `geocode_address(address, city, zip_code)` from `app.py`: returns the
first candidate's `(latitude, longitude)` if the feature list is non-empty,
and `(None, None)` on an empty list or on any exception. -/
def geocode_address (o : ProviderOutcome) : Option ℚ × Option ℚ :=
  match o with
  | .response (f :: _) => (some f.lat, some f.lng)
  | .response [] => (none, none)
  | .networkError => (none, none)
  | .malformedResponse => (none, none)
  | .timeout => (none, none)

/-- Python truthiness of an optional float, as tested by
`if not lat or not lng`: `None` and `0.0` are falsy, everything else is
truthy. -/
def truthy : Option ℚ → Bool
  | none => false
  | some q => decide (q ≠ 0)

/-- The fields of a `User` row that the registration and profile-edit
handlers read or write (credential hashing and timestamps are out of the
claims' scope). -/
structure User where
  email : String
  role : String
  full_name : String
  phone : String
  address : String
  city : String
  zip_code : String
  latitude : Option ℚ
  longitude : Option ℚ
  company_name : Option String
  company_description : Option String
  deriving DecidableEq

/-- The form fields of a registration POST. -/
structure RegisterForm where
  email : String
  password : String
  confirm_password : String
  role : String
  full_name : String
  phone : String
  address : String
  city : String
  zip_code : String
  company_name : String
  company_description : String
  deriving DecidableEq

/-- The user-visible outcome of a registration POST. -/
inductive RegisterResult where
  | passwordMismatch
  | passwordTooShort
  | emailTaken
  | addressUnverified
  | success
  deriving DecidableEq

/-- The `User` row built on the successful registration path: address
fields and the geocoded coordinate are set in the same constructor call,
and the company fields only for the employer role. -/
def mkUser (rf : RegisterForm) (lat lng : Option ℚ) : User :=
  { email := rf.email
    role := rf.role
    full_name := rf.full_name
    phone := rf.phone
    address := rf.address
    city := rf.city
    zip_code := rf.zip_code
    latitude := lat
    longitude := lng
    company_name := if rf.role = "employer" then some rf.company_name else none
    company_description :=
      if rf.role = "employer" then some rf.company_description else none }

/-- The POST branch of `register` in `app.py`.  `db` is the committed list
of user rows, `o` the outcome the provider would give for this form's
address.  Validation runs in source order: password match, password length,
email uniqueness, then geocoding; a single `db.session.add` +
`db.session.commit` persists the row on the success path, every failure
path redirects without committing. -/
def register (db : List User) (rf : RegisterForm) (o : ProviderOutcome) :
    RegisterResult × List User :=
  if rf.password ≠ rf.confirm_password then (.passwordMismatch, db)
  else if rf.password.length < 8 then (.passwordTooShort, db)
  else if db.any (fun u => u.email = rf.email) then (.emailTaken, db)
  else
    let lat := (geocode_address o).1
    let lng := (geocode_address o).2
    if !truthy lat || !truthy lng then (.addressUnverified, db)
    else (.success, db ++ [mkUser rf lat lng])

/-- The form fields of a profile-edit POST. -/
structure EditForm where
  full_name : String
  phone : String
  address : String
  city : String
  zip_code : String
  company_name : String
  company_description : String
  deriving DecidableEq

/-- The user-visible outcome of a profile-edit POST. -/
inductive EditResult where
  | rejectedAddress
  | success
  deriving DecidableEq

/-- The observable effect of one profile-edit attempt: its result, the
committed user row afterwards, and whether `geocode_address` was called
during the attempt. -/
structure EditOutcome where
  result : EditResult
  user : User
  geocodeCalled : Bool
  deriving DecidableEq

/-- The employer-only block of `edit_profile`: company fields are updated
from the form when the user's role is employer. -/
def applyEmployerFields (p : User) (ef : EditForm) : User :=
  if p.role = "employer" then
    { p with
      company_name := some ef.company_name
      company_description := some ef.company_description }
  else p

/-- The POST branch of `edit_profile` in `app.py`.  The handler first
assigns `full_name` and `phone` on the session object (`pending`), then
compares the submitted address, city and zip against the stored ones.  If
any differs it geocodes the new address; a falsy latitude or longitude
redirects before `db.session.commit()`, so the stored row is left as it was
(the uncommitted session is rolled back).  Otherwise address fields and
coordinates are assigned together and, after the employer block, the
session is committed. -/
def edit_profile (u : User) (ef : EditForm) (o : ProviderOutcome) :
    EditOutcome :=
  let pending := { u with full_name := ef.full_name, phone := ef.phone }
  if ef.address ≠ u.address ∨ ef.city ≠ u.city ∨ ef.zip_code ≠ u.zip_code then
    let lat := (geocode_address o).1
    let lng := (geocode_address o).2
    if !truthy lat || !truthy lng then
      ⟨.rejectedAddress, u, true⟩
    else
      ⟨.success,
        applyEmployerFields
          { pending with
            address := ef.address
            city := ef.city
            zip_code := ef.zip_code
            latitude := lat
            longitude := lng } ef,
        true⟩
  else
    ⟨.success, applyEmployerFields pending ef, false⟩

/-- A geocoding oracle: the coordinate the provider resolves for given
address, city and zip fields during the window under consideration. -/
def GeoOracle : Type := String → String → String → ProviderOutcome

/-- The stored coordinate corresponds to geocoding the stored address
fields under the oracle `geo`. -/
def coordInv (geo : GeoOracle) (u : User) : Prop :=
  (u.latitude, u.longitude) = geocode_address (geo u.address u.city u.zip_code)

instance (geo : GeoOracle) (u : User) : Decidable (coordInv geo u) := by
  unfold coordInv
  infer_instance

/-- The failure conditions of the geocoder listed by the spec: zero
candidates, a transport error, a malformed response, or a timeout. -/
def isFailureOutcome (o : ProviderOutcome) : Prop :=
  o = .response [] ∨ o = .networkError ∨ o = .malformedResponse ∨ o = .timeout

instance (o : ProviderOutcome) : Decidable (isFailureOutcome o) := by
  unfold isFailureOutcome
  infer_instance

/- Concrete sample data used to instantiate the theorems below. -/

/-- A sample oracle resolving every address to latitude 5, longitude 7. -/
def geoW : GeoOracle := fun _ _ _ => .response [⟨7, 5⟩]

/-- A sample stored user row whose coordinate matches `geoW`. -/
def userW : User :=
  { email := "a@b.c"
    role := "job_seeker"
    full_name := "Ada"
    phone := "0801"
    address := "12 Road"
    city := "Lagos"
    zip_code := "100001"
    latitude := some 5
    longitude := some 7
    company_name := none
    company_description := none }

/-- A sample edit form that changes the street address. -/
def efW : EditForm :=
  { full_name := "Ada B"
    phone := "0802"
    address := "13 Road"
    city := "Lagos"
    zip_code := "100001"
    company_name := ""
    company_description := "" }

/-- A sample edit form whose address fields match `userW`. -/
def efSame : EditForm :=
  { full_name := "Ada C"
    phone := "0803"
    address := "12 Road"
    city := "Lagos"
    zip_code := "100001"
    company_name := ""
    company_description := "" }

/-- A sample registration form passing every pre-geocoding validation. -/
def rfC : RegisterForm :=
  { email := "x@y.z"
    password := "password1"
    confirm_password := "password1"
    role := "job_seeker"
    full_name := "Xena"
    phone := "0804"
    address := "1 Marina"
    city := "Lagos"
    zip_code := "101001"
    company_name := ""
    company_description := "" }

/-- A provider response resolving to latitude 0, longitude 3. -/
def oC : ProviderOutcome := .response [⟨3, 0⟩]

/- ## Supporting lemmas -/

/-- The haversine only depends on the angle difference up to sign. -/
lemma hav_sub_comm (a b : ℝ) : hav (a - b) = hav (b - a) := by
  unfold hav
  have h : (a - b) / 2 = -((b - a) / 2) := by ring
  rw [h, Real.sin_neg]
  ring

/-- The modelled distance is symmetric in its two coordinate pairs. -/
lemma calculate_distance_comm (lat1 lon1 lat2 lon2 : ℝ) :
    calculate_distance lat1 lon1 lat2 lon2 =
      calculate_distance lat2 lon2 lat1 lon1 := by
  unfold calculate_distance
  rw [hav_sub_comm (deg2rad lat2) (deg2rad lat1),
    hav_sub_comm (deg2rad lon2) (deg2rad lon1),
    mul_comm (Real.cos (deg2rad lat1)) (Real.cos (deg2rad lat2))]

/-- The modelled distance from a point to itself is zero. -/
lemma calculate_distance_self (lat lon : ℝ) :
    calculate_distance lat lon lat lon = 0 := by
  unfold calculate_distance hav
  simp

/-- The modelled distance is non-negative. -/
lemma calculate_distance_nonneg (lat1 lon1 lat2 lon2 : ℝ) :
    0 ≤ calculate_distance lat1 lon1 lat2 lon2 := by
  unfold calculate_distance
  have h2 : (0 : ℝ) ≤ 2 * earthRadiusKm := by
    unfold earthRadiusKm; norm_num
  exact mul_nonneg h2 (Real.arcsin_nonneg.2 (Real.sqrt_nonneg _))

lemma applyEmployerFields_address (p : User) (ef : EditForm) :
    (applyEmployerFields p ef).address = p.address := by
  unfold applyEmployerFields
  split <;> rfl

lemma applyEmployerFields_city (p : User) (ef : EditForm) :
    (applyEmployerFields p ef).city = p.city := by
  unfold applyEmployerFields
  split <;> rfl

lemma applyEmployerFields_zip (p : User) (ef : EditForm) :
    (applyEmployerFields p ef).zip_code = p.zip_code := by
  unfold applyEmployerFields
  split <;> rfl

lemma applyEmployerFields_latitude (p : User) (ef : EditForm) :
    (applyEmployerFields p ef).latitude = p.latitude := by
  unfold applyEmployerFields
  split <;> rfl

lemma applyEmployerFields_longitude (p : User) (ef : EditForm) :
    (applyEmployerFields p ef).longitude = p.longitude := by
  unfold applyEmployerFields
  split <;> rfl

/- ## Claim theorems -/

/-- Claim C5: for every coordinate `(lat, lng)` and service area with center
`(clat, clng)` and radius `r`, `is_within_service_area` holds exactly when
the distance from the point to the center is at most the radius; the
boundary (distance equal to the radius) is inside. -/
theorem within_service_area_iff (clat clng r lat lng : ℝ) :
    is_within_service_area ⟨some clat, some clng, some r⟩ lat lng ↔
      calculate_distance lat lng clat clng ≤ r := by
  unfold is_within_service_area envFloat
  simp only [Option.getD_some]
  rw [calculate_distance_comm clat clng lat lng]

/-- Claim C6: for all coordinate pairs with latitude in [-90, 90] and
longitude in [-180, 180], the distance is symmetric and the distance from a
point to itself is zero. -/
theorem distance_symm_and_identity (lat1 lon1 lat2 lon2 : ℝ)
    (h1 : -90 ≤ lat1 ∧ lat1 ≤ 90) (h2 : -180 ≤ lon1 ∧ lon1 ≤ 180)
    (h3 : -90 ≤ lat2 ∧ lat2 ≤ 90) (h4 : -180 ≤ lon2 ∧ lon2 ≤ 180) :
    calculate_distance lat1 lon1 lat2 lon2 =
        calculate_distance lat2 lon2 lat1 lon1 ∧
      calculate_distance lat1 lon1 lat1 lon1 = 0 :=
  ⟨calculate_distance_comm lat1 lon1 lat2 lon2,
    calculate_distance_self lat1 lon1⟩

/-- Witness for C6 at the concrete pair (6.5, 3.4) and (9, 4). -/
theorem distance_symm_and_identity_witness :
    calculate_distance 6.5 3.4 9 4 = calculate_distance 9 4 6.5 3.4 ∧
      calculate_distance 6.5 3.4 6.5 3.4 = 0 :=
  distance_symm_and_identity 6.5 3.4 9 4 (by norm_num) (by norm_num)
    (by norm_num) (by norm_num)

/-- Claim C8: with all three service-area environment variables unset,
`is_within_service_area` tests the distance to the default center (0, 0)
against the default radius 50 km. -/
theorem within_service_area_defaults (lat lng : ℝ) :
    is_within_service_area ⟨none, none, none⟩ lat lng ↔
      calculate_distance 0 0 lat lng ≤ 50 :=
  Iff.rfl

/-- Claim C10: for all coordinate pairs with latitude in [-90, 90] and
longitude in [-180, 180], the distance is non-negative. -/
theorem distance_nonneg_in_bounds (lat1 lon1 lat2 lon2 : ℝ)
    (h1 : -90 ≤ lat1 ∧ lat1 ≤ 90) (h2 : -180 ≤ lon1 ∧ lon1 ≤ 180)
    (h3 : -90 ≤ lat2 ∧ lat2 ≤ 90) (h4 : -180 ≤ lon2 ∧ lon2 ≤ 180) :
    0 ≤ calculate_distance lat1 lon1 lat2 lon2 :=
  calculate_distance_nonneg lat1 lon1 lat2 lon2

/-- Witness for C10 at the concrete pair (10, 20) and (30, 40). -/
theorem distance_nonneg_in_bounds_witness :
    0 ≤ calculate_distance 10 20 30 40 :=
  distance_nonneg_in_bounds 10 20 30 40 (by norm_num) (by norm_num)
    (by norm_num) (by norm_num)

/-- Claim C7: on every failure condition of the geocoder — zero candidates,
a transport error, a malformed response, or a timeout — `geocode_address`
returns the explicit unresolved pair `(None, None)`, and in particular
never any resolved coordinate (such as a default (0, 0)). -/
theorem geocode_failure_unresolved (o : ProviderOutcome)
    (h : isFailureOutcome o) :
    geocode_address o = (none, none) ∧
      ∀ la ln : ℚ, geocode_address o ≠ (some la, some ln) := by
  have hr : geocode_address o = (none, none) := by
    rcases h with h | h | h | h <;> simp [h, geocode_address]
  refine ⟨hr, fun la ln hc => ?_⟩
  rw [hr] at hc
  exact Option.noConfusion (congrArg Prod.fst hc)

/-- Witness for C7 at the transport-error outcome. -/
theorem geocode_failure_unresolved_witness :
    geocode_address .networkError = (none, none) ∧
      ∀ la ln : ℚ, geocode_address .networkError ≠ (some la, some ln) :=
  geocode_failure_unresolved .networkError (Or.inr (Or.inl rfl))

/-- Claim C1: the stored coordinate is never stale.  Under a geocoding
oracle `geo`, every user row a registration commits that was not already
stored satisfies `coordInv` (its coordinate is the geocoding of its stored
address fields), and every profile-edit attempt carried out with the oracle
preserves `coordInv` — whether it commits a re-geocoded address, commits
with the address unchanged, or is rejected. -/
theorem coord_invariant_maintained (geo : GeoOracle) (db : List User)
    (rf : RegisterForm) (u : User) (ef : EditForm) :
    (∀ v, v ∈ (register db rf (geo rf.address rf.city rf.zip_code)).2 →
        v ∈ db ∨ coordInv geo v) ∧
    (coordInv geo u →
      coordInv geo
        (edit_profile u ef (geo ef.address ef.city ef.zip_code)).user) := by
  constructor
  · intro v hv
    simp only [register] at hv
    split at hv
    · exact Or.inl hv
    · split at hv
      · exact Or.inl hv
      · split at hv
        · exact Or.inl hv
        · split at hv
          · exact Or.inl hv
          · rcases List.mem_append.1 hv with h | h
            · exact Or.inl h
            · right
              have hveq :
                  v = mkUser rf
                    (geocode_address (geo rf.address rf.city rf.zip_code)).1
                    (geocode_address (geo rf.address rf.city rf.zip_code)).2 := by
                simpa using h
              subst hveq
              unfold coordInv mkUser
              rfl
  · intro hInv
    simp only [edit_profile]
    split
    · split
      · exact hInv
      · unfold coordInv
        rw [applyEmployerFields_latitude, applyEmployerFields_longitude,
          applyEmployerFields_address, applyEmployerFields_city,
          applyEmployerFields_zip]
    · unfold coordInv
      rw [applyEmployerFields_latitude, applyEmployerFields_longitude,
        applyEmployerFields_address, applyEmployerFields_city,
        applyEmployerFields_zip]
      exact hInv

/-- Witness for C1: the sample user `userW` satisfies the coordinate
invariant under `geoW`, and an edit changing the street keeps it. -/
theorem coord_invariant_maintained_witness :
    coordInv geoW
      (edit_profile userW efW (geoW efW.address efW.city efW.zip_code)).user :=
  (coord_invariant_maintained geoW [] rfC userW efW).2 (by decide)

/-- Claim C2: when at least one submitted address field differs from the
stored one and geocoding the new address is unresolved, the whole edit is
rejected: the committed user row afterwards — address fields, coordinate,
and every other field including `full_name` and `phone` — equals the row
before the attempt. -/
theorem edit_unresolved_rejects_atomically (u : User) (ef : EditForm)
    (o : ProviderOutcome)
    (hch : ef.address ≠ u.address ∨ ef.city ≠ u.city ∨ ef.zip_code ≠ u.zip_code)
    (hun : geocode_address o = (none, none)) :
    (edit_profile u ef o).result = .rejectedAddress ∧
      (edit_profile u ef o).user = u := by
  simp only [edit_profile, hun]
  rw [if_pos hch]
  exact ⟨rfl, rfl⟩

/-- Witness for C2: editing `userW` to the changed address of `efW` while
the lookup times out leaves the stored row untouched. -/
theorem edit_unresolved_rejects_atomically_witness :
    (edit_profile userW efW .timeout).result = .rejectedAddress ∧
      (edit_profile userW efW .timeout).user = userW :=
  edit_unresolved_rejects_atomically userW efW .timeout (by decide) (by decide)

/-- Counterexample to C3 as stated: the form `rfC` passes every
pre-geocoding validation and the provider resolves the address to the
coordinate (0, 3) — a resolved candidate, not an unresolved result — yet
`register` persists no user row and reports the address-verification
failure, because the handler tests the truthiness of the latitude. -/
theorem register_resolved_not_persisted_counterexample :
    rfC.password = rfC.confirm_password ∧ 8 ≤ rfC.password.length ∧
      ([] : List User).any (fun u => u.email = rfC.email) = false ∧
      geocode_address oC = (some 0, some 3) ∧
      (register [] rfC oC).1 = .addressUnverified ∧
      (register [] rfC oC).2 = [] := by
  decide

/-- Claim C3 (amended): for a registration whose passwords match, whose
password has at least 8 characters and whose email is fresh: if geocoding
is unresolved, no user row is persisted and the address-verification
failure is reported; if geocoding resolves to a coordinate whose latitude
and longitude are both nonzero, the user row is persisted with its address
fields and that coordinate set together, atomically. -/
theorem register_geocode_outcome (db : List User) (rf : RegisterForm)
    (o : ProviderOutcome)
    (h1 : rf.password = rf.confirm_password)
    (h2 : ¬ rf.password.length < 8)
    (h3 : db.any (fun u => u.email = rf.email) = false) :
    (geocode_address o = (none, none) →
      (register db rf o).1 = .addressUnverified ∧
        (register db rf o).2 = db) ∧
    (∀ la ln : ℚ, geocode_address o = (some la, some ln) → la ≠ 0 → ln ≠ 0 →
      (register db rf o).1 = .success ∧
        (register db rf o).2 = db ++ [mkUser rf (some la) (some ln)]) := by
  constructor
  · intro hun
    simp [register, not_not_intro h1, h2, h3, hun, truthy]
  · intro la ln hres hla hln
    simp [register, not_not_intro h1, h2, h3, hres, truthy, hla, hln]

/-- Witness for C3 (amended): registering with `rfC` while the provider
resolves the address to latitude 5, longitude 7 persists exactly the new
row. -/
theorem register_geocode_outcome_witness :
    (register [] rfC (.response [⟨7, 5⟩])).1 = .success ∧
      (register [] rfC (.response [⟨7, 5⟩])).2 =
        [] ++ [mkUser rfC (some 5) (some 7)] :=
  (register_geocode_outcome [] rfC (.response [⟨7, 5⟩]) (by decide) (by decide)
    (by decide)).2 5 7 (by decide) (by decide) (by decide)

/-- Claim C4: when the submitted address, city and zip all equal the stored
values, the edit makes no geocode call and the stored latitude and
longitude afterwards equal their values before the update. -/
theorem edit_unchanged_address_skips_geocode (u : User) (ef : EditForm)
    (o : ProviderOutcome)
    (h1 : ef.address = u.address) (h2 : ef.city = u.city)
    (h3 : ef.zip_code = u.zip_code) :
    (edit_profile u ef o).geocodeCalled = false ∧
      (edit_profile u ef o).user.latitude = u.latitude ∧
      (edit_profile u ef o).user.longitude = u.longitude := by
  simp only [edit_profile]
  rw [if_neg (by simp [h1, h2, h3])]
  refine ⟨rfl, ?_, ?_⟩
  · rw [applyEmployerFields_latitude]
  · rw [applyEmployerFields_longitude]

/-- Witness for C4: submitting `efSame`, whose address fields match
`userW`, makes no geocode call and keeps the coordinate. -/
theorem edit_unchanged_address_skips_geocode_witness :
    (edit_profile userW efSame .networkError).geocodeCalled = false ∧
      (edit_profile userW efSame .networkError).user.latitude =
        userW.latitude ∧
      (edit_profile userW efSame .networkError).user.longitude =
        userW.longitude :=
  edit_unchanged_address_skips_geocode userW efSame .networkError
    (by decide) (by decide) (by decide)

/-- Claim C9: when geocoding resolves to a coordinate with latitude 0 or
longitude 0, both entry points treat the result as unresolved because they
test truthiness: a registration that passed every earlier validation
persists nothing and reports the address failure, and a profile edit with a
changed address is rejected with the stored row unchanged. -/
theorem zero_coordinate_treated_unresolved (db : List User)
    (rf : RegisterForm) (u : User) (ef : EditForm) (o : ProviderOutcome)
    (la ln : ℚ) (hgeo : geocode_address o = (some la, some ln))
    (hz : la = 0 ∨ ln = 0) :
    (rf.password = rf.confirm_password → ¬ rf.password.length < 8 →
      db.any (fun v => v.email = rf.email) = false →
      (register db rf o).1 = .addressUnverified ∧
        (register db rf o).2 = db) ∧
    ((ef.address ≠ u.address ∨ ef.city ≠ u.city ∨ ef.zip_code ≠ u.zip_code) →
      (edit_profile u ef o).result = .rejectedAddress ∧
        (edit_profile u ef o).user = u) := by
  have htr : (!truthy (geocode_address o).1 || !truthy (geocode_address o).2)
      = true := by
    rcases hz with hz | hz <;> subst hz <;> simp [hgeo, truthy]
  constructor
  · intro h1 h2 h3
    simp only [register, htr]
    rw [if_neg (not_not_intro h1), if_neg h2,
      if_neg (by simp [h3]), if_pos trivial]
    exact ⟨rfl, rfl⟩
  · intro hch
    simp only [edit_profile, htr]
    rw [if_pos hch]
    exact ⟨rfl, rfl⟩

/-- Witness for C9: the provider resolves to (0, 3); registration with the
valid form `rfC` persists nothing. -/
theorem zero_coordinate_treated_unresolved_witness :
    (register [] rfC (.response [⟨3, 0⟩])).1 = .addressUnverified ∧
      (register [] rfC (.response [⟨3, 0⟩])).2 = [] :=
  (zero_coordinate_treated_unresolved [] rfC userW efW (.response [⟨3, 0⟩])
    0 3 (by decide) (Or.inl rfl)).1 (by decide) (by decide) (by decide)

end RoseGold
